import Mathlib

/-!
Verification of the table materialization/upsert core of the pydremio
repository against its natural-language specification.

The embedding translates, as directly as Lean allows:
  * `src/dremio/utils/converter.py` — `path_to_list`, `path_to_dotted`;
  * `src/dremio/_mixins/_table.py` — `map_dtype_to_sql`, `escape_sql_value`,
    `dotted_full_path`, `create_table_from_dataframe`, `create_table_from_sql`,
    `create_table`, `update_table_from_sql`, `update_table_from_dataframe`;
  * `create_dataset.py` — the standalone `create_table` script variant.

The network collaborators (`self.query`, `self.get_catalog_by_path`) and the
`DremioError` exception class live outside this core (spec §6 lists them as
collaborator contracts).  They are modelled as an oracle environment `Env`:
the engine's answer to the k-th statement a call sends, and the catalog
lookup's answer for a path.  Each embedded operation returns the list of SQL
statement strings it actually sent, in order, together with its outcome
(normal return, or the Python exception it raised).
-/

namespace PyDremio

/-! ## Python string primitives (char-list level, so every proof can compute) -/

/-- Python `sep.join(l)`. -/
def pyJoin (sep : String) : List String → String
  | [] => ""
  | [s] => s
  | s :: rest => s ++ sep ++ pyJoin sep rest

/-- Python `s.split('.')` — accumulator form; `"".split('.') = [""]`. -/
def splitDotAux : List Char → List Char → List String
  | acc, [] => [String.mk acc.reverse]
  | acc, '.' :: cs => String.mk acc.reverse :: splitDotAux [] cs
  | acc, c :: cs => splitDotAux (c :: acc) cs

/-- Python `s.split('.')`. -/
def pySplitDot (s : String) : List String := splitDotAux [] s.data

/-- Python `val.replace("'", "''")`: double every single quote. -/
def doubleSQChars : List Char → List Char
  | [] => []
  | c :: cs =>
      if c = '\'' then '\'' :: '\'' :: doubleSQChars cs
      else c :: doubleSQChars cs

def doubleSQ (s : String) : String := String.mk (doubleSQChars s.data)

/-- Python `p.replace('"', "")`: removing every double quote is filtering. -/
def removeDQ (s : String) : String := String.mk (s.data.filter (fun c => c ≠ '"'))

/-- Helper for Python `needle in hay`: the list starts with the needle. -/
def listStartsWith : List Char → List Char → Bool
  | [], _ => true
  | _ :: _, [] => false
  | a :: as_, b :: bs => a = b && listStartsWith as_ bs

/-- Python `needle in hay` on char lists. -/
def listHasSub (needle : List Char) : List Char → Bool
  | [] => listStartsWith needle []
  | c :: cs => listStartsWith needle (c :: cs) || listHasSub needle cs

/-- Python `needle in hay` for strings. -/
def strHasSub (hay needle : String) : Bool := listHasSub needle.data hay.data

/-! ## utils/converter.py — `path_to_list` / `path_to_dotted`

`path_to_list` on a string first tries the bracketed form
`^\s*\[(.*)\]\s*$` and otherwise tokenizes with
`'([^'\\]*(?:\\.[^'\\]*)*)' | ([^. \[\],]+)` (single-quoted segment with
escapes, or an unquoted run without dots, spaces, brackets and commas),
keeping only non-empty tokens.  The tokenizers below are hand-compiled
versions of those regexes over char lists. -/

/-- Characters excluded from the fallback pattern's unquoted alternative. -/
def isDelim (c : Char) : Bool := c = '.' || c = ' ' || c = '[' || c = ']' || c = ','

/-- ASCII part of Python's `\s` (the inputs of this development are ASCII). -/
def isSpaceChar (c : Char) : Bool :=
  c = ' ' || c = '\t' || c = '\n' || c = '\x0d' || c = '\x0b' || c = '\x0c'

/-- Match of a quoted regex alternative right after its opening quote `q`:
content chars are `[^q\\]`, a backslash escapes any character but a newline.
The character classes are disjoint, so the regex is deterministic and this
recursion is its exact parse; `some (raw group content, rest after the
closing quote)` on success. -/
def scanQuoted (q : Char) : List Char → Option (List Char × List Char)
  | [] => none
  | [c] => if c = q then some ([], []) else none
  | c :: d :: cs =>
      if c = q then some ([], d :: cs)
      else if c = '\\' then
        if d = '\n' then none
        else (scanQuoted q cs).map (fun p => ('\\' :: d :: p.1, p.2))
      else (scanQuoted q (d :: cs)).map (fun p => (c :: p.1, p.2))

/-- Python `quoted.replace("\\'", "'")` applied to a single-quoted token. -/
def unescSQ : List Char → List Char
  | [] => []
  | '\\' :: '\'' :: cs => '\'' :: unescSQ cs
  | c :: cs => c :: unescSQ cs

/-- State of the fallback tokenizer: top level, inside an unquoted run
(alternative 2, accumulator reversed), or inside a single-quoted token
(alternative 1, raw content reversed). -/
inductive TokSt where
  | top : TokSt
  | run (acc : List Char) : TokSt
  | quoted (acc : List Char) : TokSt

/-- `re.finditer` of the fallback pattern, compiled to a state machine.
A failed match attempt advances one character; an unquoted run is maximal and
may contain quote characters (they are not in the excluded class); at a
single quote, alternative 1 is tried first and, when no closing quote
follows, the attempt falls back to an unquoted run starting at that quote. -/
def tokGo : TokSt → List Char → List String
  | .top, [] => []
  | .top, c :: cs =>
      if c = '\'' then
        match scanQuoted '\'' cs with
        | some _ => tokGo (.quoted []) cs
        | none => tokGo (.run [c]) cs
      else if isDelim c then tokGo .top cs
      else tokGo (.run [c]) cs
  | .run acc, [] => [String.mk acc.reverse]
  | .run acc, c :: cs =>
      if isDelim c then String.mk acc.reverse :: tokGo .top cs
      else tokGo (.run (c :: acc)) cs
  | .quoted _, [] => []
  | .quoted acc, '\'' :: cs => String.mk (unescSQ acc.reverse) :: tokGo .top cs
  | .quoted acc, '\\' :: c :: cs => tokGo (.quoted (c :: '\\' :: acc)) cs
  | .quoted acc, c :: cs => tokGo (.quoted (c :: acc)) cs

/-- `^\s*\[(.*)\]\s*$` (no DOTALL, so the group spans no newline; the group
is greedy, so it ends at the last `]` that only trailing whitespace follows). -/
def matchBracketed (s : String) : Option (List Char) :=
  match s.data.dropWhile isSpaceChar with
  | c :: rest =>
      if c = '[' then
        match rest.reverse.dropWhile isSpaceChar with
        | d :: rinner =>
            if d = ']' then
              let inner := rinner.reverse
              if inner.contains '\n' then none else some inner
            else none
        | [] => none
      else none
  | [] => none

/-- After a quoted alternative of the bracketed segment pattern:
`\s*(?:,|$)`.  `none` when the next non-space character is not a comma and
the string does not end, which fails the whole match attempt there. -/
def eatSegFollow (cs : List Char) : Option (List Char) :=
  match cs.dropWhile isSpaceChar with
  | [] => some []
  | ',' :: rest => some rest
  | _ => none

theorem length_dropWhile_le (p : Char → Bool) (l : List Char) :
    (l.dropWhile p).length ≤ l.length := by
  induction l with
  | nil => simp [List.dropWhile]
  | cons c cs ih =>
      by_cases h : p c <;> simp [List.dropWhile, h] <;> omega

theorem scanQuoted_length_aux (q : Char) :
    ∀ (n : Nat) (cs : List Char), cs.length ≤ n →
      ∀ content rest, scanQuoted q cs = some (content, rest) →
        rest.length < cs.length := by
  intro n
  induction n with
  | zero =>
      intro cs hcs content rest h
      cases cs with
      | nil => simp [scanQuoted] at h
      | cons c cs => simp at hcs
  | succ n ih =>
      intro cs hcs content rest h
      match cs, hcs, h with
      | [], _, h => simp [scanQuoted] at h
      | [c], _, h =>
          rw [scanQuoted] at h
          by_cases h1 : c = q
          · rw [if_pos h1] at h
            simp only [Option.some.injEq, Prod.mk.injEq] at h
            obtain ⟨_, h3⟩ := h
            subst h3
            simp
          · rw [if_neg h1] at h; simp at h
      | c :: d :: cs2, hcs, h =>
          rw [scanQuoted] at h
          simp only [List.length_cons] at hcs
          by_cases h1 : c = q
          · rw [if_pos h1] at h
            simp only [Option.some.injEq, Prod.mk.injEq] at h
            obtain ⟨_, h3⟩ := h
            subst h3
            simp
          · rw [if_neg h1] at h
            by_cases h2 : c = '\\'
            · rw [if_pos h2] at h
              by_cases h3 : d = '\n'
              · rw [if_pos h3] at h; simp at h
              · rw [if_neg h3] at h
                cases hsc : scanQuoted q cs2 with
                | none => rw [hsc] at h; simp at h
                | some p =>
                    rw [hsc] at h
                    simp only [Option.map_some', Option.some.injEq,
                      Prod.mk.injEq] at h
                    obtain ⟨_, h5⟩ := h
                    subst h5
                    have hlt := ih cs2 (by omega) p.1 p.2 hsc
                    simp at hlt ⊢
                    omega
            · rw [if_neg h2] at h
              cases hsc : scanQuoted q (d :: cs2) with
              | none => rw [hsc] at h; simp at h
              | some p =>
                  rw [hsc] at h
                  simp only [Option.map_some', Option.some.injEq,
                    Prod.mk.injEq] at h
                  obtain ⟨_, h5⟩ := h
                  subst h5
                  have hlt := ih (d :: cs2) (by simp; omega) p.1 p.2 hsc
                  simp at hlt ⊢
                  omega

theorem scanQuoted_length (q : Char) (cs content rest : List Char)
    (h : scanQuoted q cs = some (content, rest)) : rest.length < cs.length :=
  scanQuoted_length_aux q cs.length cs (Nat.le_refl _) content rest h

theorem eatSegFollow_length (cs rest : List Char)
    (h : eatSegFollow cs = some rest) : rest.length ≤ cs.length := by
  unfold eatSegFollow at h
  have hd := length_dropWhile_le isSpaceChar cs
  cases hdw : cs.dropWhile isSpaceChar with
  | nil => rw [hdw] at h; simp at h; subst h; simp
  | cons d ds =>
      rw [hdw] at h
      by_cases hc : d = ','
      · subst hc; simp at h; subst h; rw [hdw] at hd; simp at hd; omega
      · simp [hc] at h

/-- `re.finditer` of the bracketed segment pattern
`\s* ( "(?:[^"\\]|\\.)*" | '(?:[^'\\]|\\.)*' | [^,'" ](?:[^,]*)? ) \s* (?:,|$)`
over the bracket's inner text.  A quoted alternative keeps its raw group and
is stripped of its outer quotes; the unquoted alternative runs greedily to
the next comma (after it, `\s*(?:,|$)` always matches).  When a quoted
alternative matches but no comma or end follows, no other alternative can
match at that position (the first character is a quote), so the attempt fails
and the scan advances one character. -/
def parseBrSegs : List Char → List String
  | [] => []
  | c :: cs =>
      if isSpaceChar c then parseBrSegs cs
      else if c = '"' then
        match hq : scanQuoted '"' cs with
        | some (content, rest) =>
            match hf : eatSegFollow rest with
            | some rest2 => String.mk content :: parseBrSegs rest2
            | none => parseBrSegs cs
        | none => parseBrSegs cs
      else if c = '\'' then
        match hq : scanQuoted '\'' cs with
        | some (content, rest) =>
            match hf : eatSegFollow rest with
            | some rest2 => String.mk content :: parseBrSegs rest2
            | none => parseBrSegs cs
        | none => parseBrSegs cs
      else if c = ',' then parseBrSegs cs
      else
        let run := c :: cs.takeWhile (fun d => d ≠ ',')
        match hdw : cs.dropWhile (fun d => d ≠ ',') with
        | [] => [String.mk run]
        | _ :: rest2 => String.mk run :: parseBrSegs rest2
termination_by cs => cs.length
decreasing_by
  all_goals simp only [List.length_cons]
  all_goals try omega
  · have h1 := scanQuoted_length '"' cs content rest hq
    have h2 := eatSegFollow_length rest rest2 hf
    omega
  · have h1 := scanQuoted_length '\'' cs content rest hq
    have h2 := eatSegFollow_length rest rest2 hf
    omega
  · have h1 := length_dropWhile_le (fun d => d ≠ ',') cs
    rw [hdw] at h1
    simp at h1
    omega

/-- The union type the Python converter accepts: `str | list[str]`. -/
inductive PyPath where
  | asStr (s : String) : PyPath
  | asList (l : List String) : PyPath

/-- `converter.path_to_list`.  List branch:
`[p.replace('"', "") for p in path if p]` (the emptiness test runs before the
quote removal).  String branch: the bracketed form if the whole string
matches it, else the fallback tokenization keeping non-empty tokens. -/
def path_to_list : PyPath → List String
  | .asList l => (l.filter (fun p => p ≠ "")).map removeDQ
  | .asStr s =>
      match matchBracketed s with
      | some inner => parseBrSegs inner
      | none => (tokGo .top s.data).filter (fun t => t ≠ "")

/-- `converter.path_to_dotted`: `'"' + '"."'.join(path_to_list(path)) + '"'`. -/
def path_to_dotted (p : PyPath) : String :=
  "\"" ++ pyJoin "\".\"" (path_to_list p) ++ "\""

/-! ## _mixins/_table.py — data model

A Polars dtype, a DataFrame (ordered columns with dtypes, rows of scalars in
column order; the Pandas→Polars conversion at the top of each method is the
identity of this abstraction), and the Python scalar values the escaper
distinguishes.  A Python `bool` is an `int` but not a `float`, so the NaN
test never fires for it, and `datetime` is a subclass of `date`, which the
source's `isinstance(val, (datetime, date))` branch splits explicitly. -/

inductive PlDtype where
  | int8 | int16 | int32 | int64
  | uint8 | uint16 | uint32 | uint64
  | float32 | float64
  | boolean
  | datetime | date
  | other (typename : String)
deriving DecidableEq

/-- `_table.map_dtype_to_sql`. -/
def map_dtype_to_sql : PlDtype → String
  | .int8 | .int16 | .int32 | .int64 => "BIGINT"
  | .uint8 | .uint16 | .uint32 | .uint64 => "BIGINT"
  | .float32 | .float64 => "DOUBLE"
  | .boolean => "BOOLEAN"
  | .datetime | .date => "TIMESTAMP"
  | .other _ => "VARCHAR"

def pad2 (n : Nat) : String := if n < 10 then "0" ++ toString n else toString n

def pad4 (n : Nat) : String :=
  if n < 10 then "000" ++ toString n
  else if n < 100 then "00" ++ toString n
  else if n < 1000 then "0" ++ toString n
  else toString n

structure PyDatetime where
  year : Nat
  month : Nat
  day : Nat
  hour : Nat
  minute : Nat
  second : Nat
deriving DecidableEq

structure PyDate where
  year : Nat
  month : Nat
  day : Nat
deriving DecidableEq

/-- Python `datetime.isoformat(sep=' ', timespec='seconds')`. -/
def PyDatetime.isoformatSpSec (d : PyDatetime) : String :=
  pad4 d.year ++ "-" ++ pad2 d.month ++ "-" ++ pad2 d.day ++ " " ++
    pad2 d.hour ++ ":" ++ pad2 d.minute ++ ":" ++ pad2 d.second

/-- Python `date.isoformat()`. -/
def PyDate.isoformat (d : PyDate) : String :=
  pad4 d.year ++ "-" ++ pad2 d.month ++ "-" ++ pad2 d.day

/-- The scalar kinds `escape_sql_value` distinguishes.  `float` carries its
NaN-ness (`val != val`) and, for a finite float, the text `str(val)`
produces; `other` likewise carries its `str(val)`. -/
inductive PyVal where
  | pyNone
  | float (isNan : Bool) (text : String)
  | str (s : String)
  | datetime (d : PyDatetime)
  | date (d : PyDate)
  | bool (b : Bool)
  | int (n : Int)
  | other (text : String)
deriving DecidableEq

/-- `_table.escape_sql_value`, branch for branch: `None` → NULL; float NaN →
NULL; `str` → quoted with single quotes doubled; `datetime` → TIMESTAMP
literal, `date` → DATE literal; `bool` → TRUE/FALSE; anything else →
`str(val)` unquoted (a finite float, an int, any other object). -/
def escape_sql_value : PyVal → String
  | .pyNone => "NULL"
  | .float true _ => "NULL"
  | .str s => "'" ++ doubleSQ s ++ "'"
  | .datetime d => "TIMESTAMP '" ++ d.isoformatSpSec ++ "'"
  | .date d => "DATE '" ++ d.isoformat ++ "'"
  | .bool b => if b then "TRUE" else "FALSE"
  | .float false t => t
  | .int n => toString n
  | .other t => t

/-- `_table.dotted_full_path`: `path = path_to_list(path);
'.'.join(path) + ('.' + name if name else '')` — `if name` is Python
truthiness, so `None` and `""` both skip the suffix. -/
def dotted_full_path (path : PyPath) (name : Option String) : String :=
  let joined := pyJoin "." (path_to_list path)
  match name with
  | some n => if n = "" then joined else joined ++ "." ++ n
  | none => joined

structure DColumn where
  name : String
  dtype : PlDtype
deriving DecidableEq

/-- A tabular value: named, typed columns and rows of scalars in column
order (`df.iter_rows(named=False)`). -/
structure DataFrame where
  cols : List DColumn
  rows : List (List PyVal)
deriving DecidableEq

/-- `exceptions.DremioError`, modelled from the spec: `exceptions.py` is not
among the staged sources; spec §3 says an engine error "carries a
status/classification code and a human-readable message", and the source
reads `e.status_code` and `e.errorMessage`. -/
structure DremioError where
  status_code : Nat
  errorMessage : String
deriving DecidableEq

/-- Modelled from the spec: Python `str(e)` for a `DremioError`.  Spec §3
says "does not exist" is identified by a message substring, so the string
form exposes the human-readable message. -/
def DremioError.pyStr (e : DremioError) : String := e.errorMessage

/-- The engine's answer to one statement sent through `self.query`. -/
inductive QueryRes where
  | ok
  | err (e : DremioError)
deriving DecidableEq

/-- The catalog's answer to `self.get_catalog_by_path` (spec §6 `lookup`):
an entry, a falsy result, or a raised `DremioError`. -/
inductive LookupRes where
  | found
  | emptyDataset
  | raises (e : DremioError)
deriving DecidableEq

/-- Oracle for the external collaborators (spec §6): the engine's response
to the k-th statement a call sends, and the catalog lookup per path. -/
structure Env where
  query : Nat → QueryRes
  lookup : String → LookupRes

/-- How an embedded operation ends: normal return, or the Python exception
it raised. -/
inductive Outcome where
  | ok
  | valueError (msg : String)
  | typeError (msg : String)
  | runtimeError (msg : String)
  | dremioError (e : DremioError)
deriving DecidableEq

/-! ## _mixins/_table.py — Table Creator -/

/-- One rendered row of an INSERT: `f"({', '.join(escape_sql_value(v) ...)})"`. -/
def renderRow (row : List PyVal) : String :=
  "(" ++ pyJoin ", " (row.map escape_sql_value) ++ ")"

/-- The batching loop shared by both create-from-tabular implementations
(`rr` renders one row with the respective escaper): `value_rows` is the
accumulator; a batch is flushed inside the loop as soon as
`len(value_rows) >= batch_size`, and a non-empty remainder is flushed after
the loop. -/
def loopBatches (rr : List PyVal → String) (b : Nat) :
    List (List PyVal) → List String → List (List String)
  | [], acc => if acc.isEmpty then [] else [acc]
  | r :: rs, acc =>
      let acc2 := acc ++ [rr r]
      if b ≤ acc2.length then acc2 :: loopBatches rr b rs []
      else loopBatches rr b rs acc2

/-- The in-loop INSERT f-string (16-space indentation in the source). -/
def insert_sql_inloop (full : String) (vals : List String) : String :=
  "\n                INSERT INTO " ++ full ++ " VALUES\n                " ++
    pyJoin ",\n" vals ++ "\n                "

/-- The after-loop INSERT f-string (12-space indentation in the source). -/
def insert_sql_trailing (full : String) (vals : List String) : String :=
  "\n            INSERT INTO " ++ full ++ " VALUES\n            " ++
    pyJoin ",\n" vals ++ "\n            "

/-- Which f-string rendered a batch: a batch of `batch_size` or more rows
was flushed inside the loop, a smaller one after it. -/
def insert_sql (b : Nat) (full : String) (vals : List String) : String :=
  if b ≤ vals.length then insert_sql_inloop full vals
  else insert_sql_trailing full vals

/-- `'"{col}" {sql_type}'` joined with `",\n  "`. -/
def columns_sql (df : DataFrame) : String :=
  pyJoin ",\n  " (df.cols.map (fun c => "\"" ++ c.name ++ "\" " ++ map_dtype_to_sql c.dtype))

/-- The CREATE TABLE f-string of `create_table_from_dataframe`. -/
def create_sql_stmt (df : DataFrame) (full : String) : String :=
  "\n        CREATE TABLE " ++ full ++ "\n        (\n          " ++
    columns_sql df ++ "\n        )\n        "

/-- Sends statements one after the other through `self.query`; a raised
`DremioError` aborts the sequence (the INSERT loop has no try/except). -/
def sendAll (env : Env) : Nat → List String → List String × Outcome
  | _, [] => ([], .ok)
  | k, s :: ss =>
      match env.query k with
      | .ok =>
          let rec_ := sendAll env (k + 1) ss
          (s :: rec_.1, rec_.2)
      | .err e => ([s], .dremioError e)

/-- The 409 relabeling of `create_table_from_dataframe`: the caught error's
`errorMessage` is mutated in place, then the same object is re-raised. -/
def conflictMsgDf (full : String) (e : DremioError) : DremioError :=
  ⟨e.status_code,
    "Table '" ++ full ++ "' already exists. Use update_dataset() to modify it."
      ++ e.errorMessage⟩

/-- The 409 relabeling of `create_table_from_sql`. -/
def conflictMsgSql (full : String) (e : DremioError) : DremioError :=
  ⟨e.status_code,
    "Table '" ++ full ++ "' already exists. Use update_table() to modify it."
      ++ e.errorMessage⟩

/-- `_MixinTable.create_table_from_dataframe` starting after `k` statements
of the surrounding call.  The CREATE is sent inside `try/except DremioError`;
the handler re-raises only when `e.status_code == 409`, so any other engine
error is swallowed and execution continues with the batched INSERTs. -/
def create_table_from_dataframe (env : Env) (k : Nat) (df : DataFrame)
    (path : PyPath) (name : Option String) (batch_size : Nat) :
    List String × Outcome :=
  let full := dotted_full_path path name
  let createSql := create_sql_stmt df full
  let inserts := (loopBatches renderRow batch_size df.rows []).map (insert_sql batch_size full)
  match env.query k with
  | .err e =>
      if e.status_code = 409 then ([createSql], .dremioError (conflictMsgDf full e))
      else
        let rest := sendAll env (k + 1) inserts
        (createSql :: rest.1, rest.2)
  | .ok =>
      let rest := sendAll env (k + 1) inserts
      (createSql :: rest.1, rest.2)

/-- `_MixinTable.create_table_from_sql` (CTAS): same try/except shape as the
DataFrame variant — a non-409 engine error is swallowed and the method
returns normally. -/
def create_table_from_sql (env : Env) (k : Nat) (sql : String)
    (path : PyPath) (name : Option String) : List String × Outcome :=
  let full := dotted_full_path path name
  let createSql := "\n        CREATE TABLE " ++ full ++ " AS\n        " ++ sql ++ "\n        "
  match env.query k with
  | .ok => ([createSql], .ok)
  | .err e =>
      if e.status_code = 409 then ([createSql], .dremioError (conflictMsgSql full e))
      else ([createSql], .ok)

/-- The single `based_on` argument of `_MixinTable.create_table`: a
DataFrame, a SQL string, `None`, or an object of any other type. -/
inductive BasedOn where
  | df (d : DataFrame)
  | sqlStr (s : String)
  | pyNone
  | other (typename : String)
deriving DecidableEq

/-- `_MixinTable.create_table`: `None` → ValueError, DataFrame → the
DataFrame path, `str` → the CTAS path, anything else → TypeError.  The
guards run before any statement is sent. -/
def create_table (env : Env) (based_on : BasedOn) (path : PyPath)
    (name : Option String) (batch_size : Nat) : List String × Outcome :=
  match based_on with
  | .pyNone =>
      ([], .valueError "You must provide either a DataFrame or a SQL query to create the table.")
  | .df d => create_table_from_dataframe env 0 d path name batch_size
  | .sqlStr s => create_table_from_sql env 0 s path name
  | .other _ =>
      ([], .typeError "from must be a Pandas DataFrame, Polars DataFrame or a SQL query string.")

/-! ## _mixins/_table.py — Table Updater -/

/-- The existence check of `update_table_from_sql`: `get_catalog_by_path`
inside `try/except DremioError`; a falsy dataset raises RuntimeError (not
caught — RuntimeError is no DremioError); a caught error whose string
contains "No such file or directory" is translated, any other one
re-raised unchanged.  `none` means the check passed. -/
def checkExists (env : Env) (path : String) : Option Outcome :=
  match env.lookup path with
  | .found => none
  | .emptyDataset =>
      some (.runtimeError ("Table '" ++ path ++ "' does not exist. Use create_table() instead."))
  | .raises e =>
      if strHasSub e.pyStr "No such file or directory" then
        some (.runtimeError ("Table '" ++ path ++ "' does not exist."))
      else some (.dremioError e)

/-- The MERGE f-string of `update_table_from_sql` (8-space indentation). -/
def merge_sql_from_sql (path sql onClause : String) : String :=
  "\n        MERGE INTO " ++ path ++ " AS t\n        USING (" ++ sql ++
    ") AS s\n        ON (" ++ onClause ++
    ")\n        WHEN MATCHED THEN UPDATE SET *\n        WHEN NOT MATCHED THEN INSERT *\n        "

/-- `_MixinTable.update_table_from_sql`: existence check, then one MERGE
(`print(merge_sql)` goes to stdout, not to the engine). -/
def update_table_from_sql (env : Env) (sql onClause path : String) :
    List String × Outcome :=
  match checkExists env path with
  | some out => ([], out)
  | none =>
      let mergeSql := merge_sql_from_sql path sql onClause
      match env.query 0 with
      | .ok => ([mergeSql], .ok)
      | .err e => ([mergeSql], .dremioError e)

/-- The staging path of `update_table_from_dataframe`:
`path_to_dotted(path.split('.')[0:-1]) + "." + path.split('.')[-1] + "_temp_update"`. -/
def temp_table_path (path : String) : String :=
  let parts := pySplitDot path
  let table_name := parts.getLastD ""
  let folder := path_to_dotted (.asList parts.dropLast)
  folder ++ "." ++ table_name ++ "_temp_update"

/-- The MERGE f-string of `update_table_from_dataframe` (12-space
indentation; the staging table stands unparenthesized after USING). -/
def merge_sql_from_df (path tempPath onClause : String) : String :=
  "\n            MERGE INTO " ++ path ++ " AS t\n            USING " ++ tempPath ++
    " AS s\n            ON (" ++ onClause ++
    ")\n            WHEN MATCHED THEN UPDATE SET *\n            WHEN NOT MATCHED THEN INSERT *\n            "

/-- `_MixinTable.update_table_from_dataframe`.  No existence check of the
target is performed (unlike `update_table_from_sql`).  The staging table is
created through `create_table_from_dataframe`; the MERGE and, unless
`keep_temp_table`, the DROP are each sent in a `try/except DremioError`
whose handler just re-raises. -/
def update_table_from_dataframe (env : Env) (df : DataFrame) (onClause path : String)
    (batch_size : Nat) (keep_temp_table : Bool) : List String × Outcome :=
  let tempPath := temp_table_path path
  let staged := create_table_from_dataframe env 0 df (.asStr tempPath) none batch_size
  match staged.2 with
  | .ok =>
      let mergeSql := merge_sql_from_df path tempPath onClause
      (match env.query staged.1.length with
       | .ok =>
           if keep_temp_table then (staged.1 ++ [mergeSql], .ok)
           else
             let dropSql := "DROP TABLE " ++ tempPath
             match env.query (staged.1.length + 1) with
             | .ok => (staged.1 ++ [mergeSql, dropSql], .ok)
             | .err e => (staged.1 ++ [mergeSql, dropSql], .dremioError e)
       | .err e => (staged.1 ++ [mergeSql], .dremioError e))
  | bad => (staged.1, bad)

/-! ## create_dataset.py — the standalone script's `create_table`

The script keeps the older two-parameter interface (`df=None, sql=None`)
with explicit neither/both guards, its own Pandas dtype mapper and its own
escaper (via `pd.isna` and `pd.Timestamp`; it has no `date` branch, so a
plain `datetime.date` falls through to `str(val)`). -/

/-- `create_dataset.map_dtype_to_sql` over the same dtype abstraction:
`pd.api.types.is_*_dtype` category tests.  A column of Python `date`
objects has `object` dtype in Pandas, hence VARCHAR. -/
def script_map_dtype_to_sql : PlDtype → String
  | .int8 | .int16 | .int32 | .int64 => "BIGINT"
  | .uint8 | .uint16 | .uint32 | .uint64 => "BIGINT"
  | .float32 | .float64 => "DOUBLE"
  | .boolean => "BOOLEAN"
  | .datetime => "TIMESTAMP"
  | .date => "VARCHAR"
  | .other _ => "VARCHAR"

/-- `create_dataset.escape_sql_value`: `pd.isna` (None or NaN) → NULL,
`str` → quoted, `pd.Timestamp` → TIMESTAMP literal, `bool` → TRUE/FALSE,
everything else (`date` included) → `str(val)`. -/
def script_escape_sql_value : PyVal → String
  | .pyNone => "NULL"
  | .float true _ => "NULL"
  | .str s => "'" ++ doubleSQ s ++ "'"
  | .datetime d => "TIMESTAMP '" ++ d.isoformatSpSec ++ "'"
  | .bool b => if b then "TRUE" else "FALSE"
  | .date d => d.isoformat
  | .float false t => t
  | .int n => toString n
  | .other t => t

def script_renderRow (row : List PyVal) : String :=
  "(" ++ pyJoin ", " (row.map script_escape_sql_value) ++ ")"

def script_columns_sql (df : DataFrame) : String :=
  pyJoin ",\n  " (df.cols.map (fun c => "\"" ++ c.name ++ "\" " ++ script_map_dtype_to_sql c.dtype))

/-- `create_dataset.create_table`: the neither/both ValueError guards run
before any statement is sent; the DataFrame path repeats the mixin's
CREATE-then-batched-INSERT shape (with the script's mapper and escaper);
the CTAS path sends its statement with no try/except at all. -/
def script_create_table (env : Env) (target_path table_name : String)
    (df : Option DataFrame) (sql : Option String) (batch_size : Nat) :
    List String × Outcome :=
  match df, sql with
  | none, none =>
      ([], .valueError "You must provide either a DataFrame or a SQL query to create the table.")
  | some _, some _ =>
      ([], .valueError "Provide only one of DataFrame or SQL query, not both.")
  | some d, none =>
      let full := target_path ++ "." ++ table_name
      let createSql := "\n        CREATE TABLE " ++ full ++ "\n        (\n          " ++
        script_columns_sql d ++ "\n        )\n        "
      let inserts := (loopBatches script_renderRow batch_size d.rows []).map
        (insert_sql batch_size full)
      (match env.query 0 with
       | .err e =>
           if e.status_code = 409 then ([createSql], .dremioError (conflictMsgDf full e))
           else
             let rest := sendAll env 1 inserts
             (createSql :: rest.1, rest.2)
       | .ok =>
           let rest := sendAll env 1 inserts
           (createSql :: rest.1, rest.2))
  | none, some s =>
      let full := target_path ++ "." ++ table_name
      let createSql := "\n        CREATE TABLE " ++ full ++ " AS\n        " ++ s ++ "\n        "
      match env.query 0 with
      | .ok => ([createSql], .ok)
      | .err e => ([createSql], .dremioError e)

/-! ## General lemmas: substrings, the escaper, the batching loop -/

theorem listStartsWith_self_append (n t : List Char) :
    listStartsWith n (n ++ t) = true := by
  induction n with
  | nil => rfl
  | cons c cs ih => simp [listStartsWith, ih]

theorem listHasSub_of_startsWith (n l : List Char)
    (h : listStartsWith n l = true) : listHasSub n l = true := by
  cases l with
  | nil =>
      cases n with
      | nil => rfl
      | cons c cs => simp [listStartsWith] at h
  | cons c cs => simp [listHasSub, h]

theorem listHasSub_append_left (n xs ys : List Char)
    (h : listHasSub n ys = true) : listHasSub n (xs ++ ys) = true := by
  induction xs with
  | nil => simpa using h
  | cons c cs ih => simp [listHasSub, ih]

theorem listHasSub_mid (xs n ys : List Char) :
    listHasSub n (xs ++ (n ++ ys)) = true :=
  listHasSub_append_left n xs (n ++ ys)
    (listHasSub_of_startsWith n (n ++ ys) (listStartsWith_self_append n ys))

/-- A string of the shape `a ++ needle ++ c` contains the needle. -/
theorem strHasSub_mid (a needle c : String) :
    strHasSub (a ++ needle ++ c) needle = true := by
  show listHasSub needle.data ((a.data ++ needle.data) ++ c.data) = true
  rw [List.append_assoc]
  exact listHasSub_mid a.data needle.data c.data

/-- Every single quote of `doubleSQChars l` comes as an adjacent pair. -/
def quotesDoubled : List Char → Bool
  | [] => true
  | [c] => if c = '\'' then false else true
  | c :: d :: cs =>
      if c = '\'' then
        if d = '\'' then quotesDoubled cs else false
      else quotesDoubled (d :: cs)

theorem quotesDoubled_doubleSQChars (l : List Char) :
    quotesDoubled (doubleSQChars l) = true := by
  induction l with
  | nil => rfl
  | cons c cs ih =>
      by_cases hc : c = '\''
      · subst hc
        simp [doubleSQChars, quotesDoubled, ih]
      · rw [doubleSQChars]
        rw [if_neg hc]
        cases hd : doubleSQChars cs with
        | nil => rw [quotesDoubled]; rw [if_neg hc]
        | cons d ds =>
            rw [quotesDoubled]
            rw [if_neg hc]
            rw [hd] at ih
            exact ih

/-- Under an all-ok engine every queued statement is sent and the call
returns normally. -/
theorem sendAll_ok (env : Env) (hok : ∀ i, env.query i = .ok) :
    ∀ (l : List String) (k : Nat), sendAll env k l = (l, .ok) := by
  intro l
  induction l with
  | nil => intro k; rfl
  | cons s ss ih =>
      intro k
      rw [sendAll, hok k]
      simp [ih (k + 1)]

/-- Numeric mirror of `loopBatches`: the lengths of the flushed batches,
from the current count of buffered rendered rows. -/
def lensLoop (b : Nat) : Nat → Nat → List Nat
  | 0, a => if a = 0 then [] else [a]
  | n + 1, a =>
      if b ≤ a + 1 then (a + 1) :: lensLoop b n 0
      else lensLoop b n (a + 1)

theorem loopBatches_lengths (rr : List PyVal → String) (b : Nat) :
    ∀ (rows : List (List PyVal)) (acc : List String),
      (loopBatches rr b rows acc).map List.length = lensLoop b rows.length acc.length := by
  intro rows
  induction rows with
  | nil =>
      intro acc
      cases acc with
      | nil => rfl
      | cons s ss => simp [loopBatches, lensLoop]
  | cons r rs ih =>
      intro acc
      rw [loopBatches]
      simp only [List.length_cons, lensLoop]
      by_cases h : b ≤ acc.length + 1
      · rw [if_pos (by simpa using h), if_pos h]
        simp [ih []]
      · rw [if_neg (by simpa using h), if_neg h]
        simpa using ih (acc ++ [rr r])

theorem loopBatches_join (rr : List PyVal → String) (b : Nat) :
    ∀ (rows : List (List PyVal)) (acc : List String), acc.length < b →
      (loopBatches rr b rows acc).join = acc ++ rows.map rr := by
  intro rows
  induction rows with
  | nil =>
      intro acc _
      cases acc with
      | nil => rfl
      | cons s ss => simp [loopBatches]
  | cons r rs ih =>
      intro acc ha
      rw [loopBatches]
      by_cases h : b ≤ (acc ++ [rr r]).length
      · rw [if_pos h]
        have h0 : ([] : List String).length < b := by
          simp only [List.length_nil]
          omega
        simp [ih [] h0]
      · rw [if_neg h]
        rw [ih (acc ++ [rr r]) (by simp at h ⊢; omega)]
        simp

theorem loopBatches_sizes (rr : List PyVal → String) (b : Nat) :
    ∀ (rows : List (List PyVal)) (acc : List String), acc.length < b →
      ∀ l ∈ loopBatches rr b rows acc, l.length ≤ b := by
  intro rows
  induction rows with
  | nil =>
      intro acc ha l hl
      cases acc with
      | nil => simp [loopBatches] at hl
      | cons s ss =>
          simp [loopBatches] at hl
          subst hl
          omega
  | cons r rs ih =>
      intro acc ha l hl
      rw [loopBatches] at hl
      by_cases h : b ≤ (acc ++ [rr r]).length
      · rw [if_pos h] at hl
        rcases List.mem_cons.mp hl with h1 | h1
        · subst h1; simp at h ⊢; omega
        · exact ih [] (by simp only [List.length_nil]; omega) l h1
      · rw [if_neg h] at hl
        exact ih (acc ++ [rr r]) (by simp at h ⊢; omega) l hl

/-- When at most `batch_size` rows are buffered in total, the loop flushes
exactly one batch. -/
theorem loopBatches_single (rr : List PyVal → String) (b : Nat) :
    ∀ (rows : List (List PyVal)) (acc : List String),
      (acc ≠ [] ∨ rows ≠ []) → acc.length + rows.length ≤ b →
      loopBatches rr b rows acc = [acc ++ rows.map rr] := by
  intro rows
  induction rows with
  | nil =>
      intro acc hne _
      rcases hne with h | h
      · cases acc with
        | nil => simp at h
        | cons s ss => simp [loopBatches]
      · simp at h
  | cons r rs ih =>
      intro acc _ hle
      rw [loopBatches]
      by_cases h : b ≤ (acc ++ [rr r]).length
      · rw [if_pos h]
        have hrs : rs = [] := by
          cases rs with
          | nil => rfl
          | cons x xs => simp at h hle; omega
        subst hrs
        simp [loopBatches]
      · rw [if_neg h]
        rw [ih (acc ++ [rr r]) (by simp) (by simp at hle ⊢; omega)]
        simp

/-- Unrolling `lensLoop` to its first flush. -/
theorem lensLoop_unroll (b : Nat) :
    ∀ (n a : Nat), a < b →
      lensLoop b n a =
        if n + a < b then (if n + a = 0 then [] else [n + a])
        else b :: lensLoop b (n - (b - a)) 0 := by
  intro n
  induction n with
  | zero =>
      intro a ha
      rw [lensLoop]
      rw [if_pos (show 0 + a < b by omega)]
      simp
  | succ n ih =>
      intro a ha
      rw [lensLoop]
      by_cases h : b ≤ a + 1
      · rw [if_pos h]
        rw [if_neg (show ¬ (n + 1 + a < b) by omega)]
        have hab : a + 1 = b := by omega
        have hidx : n + 1 - (b - a) = n := by omega
        rw [hab, hidx]
      · rw [if_neg h]
        rw [ih (a + 1) (by omega)]
        have h2 : n + (a + 1) = n + 1 + a := by omega
        have h4 : n - (b - (a + 1)) = n + 1 - (b - a) := by omega
        rw [h2, h4]

/-- Closed form of the batch sizes: `n / b` full batches of `b` rows and,
when `n` is no multiple of `b`, one final batch of `n % b` rows. -/
theorem lensLoop_closed (b : Nat) (hb : 1 ≤ b) :
    ∀ n, lensLoop b n 0 =
      List.replicate (n / b) b ++ (if n % b = 0 then [] else [n % b]) := by
  intro n
  induction n using Nat.strong_induction_on with
  | _ n ih =>
      rw [lensLoop_unroll b n 0 (by omega)]
      by_cases h1 : n + 0 < b
      · rw [if_pos h1]
        have hdiv : n / b = 0 := Nat.div_eq_of_lt (by omega)
        have hmod : n % b = n := Nat.mod_eq_of_lt (by omega)
        rw [hdiv, hmod]
        by_cases h2 : n = 0
        · rw [if_pos (by omega), if_pos h2]
          rfl
        · rw [if_neg (by omega), if_neg h2]
          rfl
      · rw [if_neg h1]
        have hbn : b ≤ n := by omega
        have hsub : n - (b - 0) = n - b := by omega
        rw [hsub]
        rw [ih (n - b) (by omega)]
        have hdiv : n / b = (n - b) / b + 1 := by
          rw [Nat.div_eq n b]
          rw [if_pos ⟨by omega, hbn⟩]
        have hmod : n % b = (n - b) % b := by
          rw [Nat.mod_eq n b]
          rw [if_pos ⟨by omega, hbn⟩]
        rw [hdiv, hmod]
        rw [List.replicate_succ]
        simp

/-- The number of flushed batches is the ceiling `⌈n / b⌉`. -/
theorem lensLoop_count (b : Nat) (hb : 1 ≤ b) (n : Nat) :
    (lensLoop b n 0).length = (n + b - 1) / b := by
  rw [lensLoop_closed b hb n]
  have hq := Nat.div_add_mod n b
  set q := n / b with hqdef
  set r := n % b with hrdef
  have hrb : r < b := Nat.mod_lt n (by omega)
  by_cases h : r = 0
  · have hn : n = b * q := by omega
    have : n + b - 1 = (b - 1) + b * q := by omega
    rw [this, Nat.add_mul_div_left _ _ (by omega : 0 < b)]
    rw [Nat.div_eq_of_lt (by omega : b - 1 < b)]
    simp [h]
  · have hn : n = b * q + r := by omega
    have hb2 : b * (q + 1) = b * q + b := by ring
    have : n + b - 1 = (r - 1) + b * (q + 1) := by omega
    rw [this, Nat.add_mul_div_left _ _ (by omega : 0 < b)]
    rw [Nat.div_eq_of_lt (by omega : r - 1 < b)]
    simp [h]

/-! ## Lemmas about the path converter (claim C9) -/

/-- A character an identifier segment may hold: not one of the tokenizer's
excluded characters and no quote of either kind. -/
def goodChar (c : Char) : Bool := !(isDelim c) && !(c = '\'') && !(c = '"')

/-- A TablePath segment in the claim's sense: non-empty, quote-free,
made of identifier characters. -/
def goodSeg (s : String) : Bool := (s != "") && s.data.all goodChar

theorem goodSeg_ne_empty (s : String) (h : goodSeg s = true) : s ≠ "" := by
  simp [goodSeg] at h
  exact h.1

theorem goodSeg_chars (s : String) (h : goodSeg s = true) :
    ∀ c ∈ s.data, goodChar c = true := by
  simp only [goodSeg, Bool.and_eq_true, List.all_eq_true] at h
  exact h.2

theorem goodChar_not_delim (c : Char) (h : goodChar c = true) : isDelim c = false := by
  simp [goodChar] at h
  exact h.1.1

theorem goodChar_not_dq (c : Char) (h : goodChar c = true) : c ≠ '"' := by
  simp [goodChar] at h
  exact h.2

theorem removeDQ_goodSeg (s : String) (h : goodSeg s = true) : removeDQ s = s := by
  apply String.ext
  show s.data.filter (fun c => c ≠ '"') = s.data
  rw [List.filter_eq_self]
  intro c hc
  simp [goodChar_not_dq c (goodSeg_chars s h c hc)]

/-- The list branch of `path_to_list` is the identity on good segments. -/
theorem path_to_list_good (segs : List String)
    (hg : ∀ s ∈ segs, goodSeg s = true) : path_to_list (.asList segs) = segs := by
  show (segs.filter (fun p => p ≠ "")).map removeDQ = segs
  have hf : segs.filter (fun p => p ≠ "") = segs := by
    rw [List.filter_eq_self]
    intro s hs
    simp [goodSeg_ne_empty s (hg s hs)]
  rw [hf]
  induction segs with
  | nil => rfl
  | cons s rest ih =>
      rw [List.map_cons]
      rw [removeDQ_goodSeg s (hg s (by simp))]
      rw [ih (fun x hx => hg x (by simp [hx])) (by
        rw [List.filter_eq_self]
        intro x hx
        simp [goodSeg_ne_empty x (hg x (by simp [hx]))])]

/-- Consuming non-excluded characters inside an unquoted run. -/
theorem tokGo_run_consume :
    ∀ (l : List Char), (∀ c ∈ l, isDelim c = false) →
      ∀ (acc rest : List Char),
        tokGo (.run acc) (l ++ rest) = tokGo (.run (l.reverse ++ acc)) rest := by
  intro l
  induction l with
  | nil => intro _ acc rest; simp
  | cons c cs ih =>
      intro h acc rest
      rw [List.cons_append, tokGo]
      rw [if_neg (by simp [h c (by simp)])]
      rw [ih (fun d hd => h d (by simp [hd])) (c :: acc) rest]
      simp

/-- Tokenizing the dotted-quoted rendering `"s1"."s2"..."sn"`: each segment
comes back wrapped in its double quotes. -/
theorem tokGo_dotted :
    ∀ (segs : List String), segs ≠ [] →
      (∀ s ∈ segs, ∀ c ∈ s.data, isDelim c = false) →
      tokGo .top ('"' :: ((pyJoin "\".\"" segs).data ++ ['"'])) =
        segs.map (fun s => "\"" ++ s ++ "\"") := by
  intro segs
  induction segs with
  | nil => intro h; exact absurd rfl h
  | cons s rest ih =>
      intro _ hgood
      cases rest with
      | nil =>
          show tokGo .top ('"' :: (s.data ++ ['"'])) = ["\"" ++ s ++ "\""]
          rw [tokGo]
          rw [if_neg (by decide)]
          rw [if_neg (by simp [isDelim])]
          rw [tokGo_run_consume s.data (hgood s (by simp)) ['"'] ['"']]
          rw [tokGo]
          rw [if_neg (by simp [isDelim])]
          rw [tokGo]
          apply congrArg (fun l => [l])
          apply String.ext
          show ('"' :: (s.data.reverse ++ ['"'])).reverse = '"' :: (s.data ++ ['"'])
          simp
      | cons s2 rest2 =>
          show tokGo .top ('"' :: (((s.data ++ ('"' :: '.' :: '"' :: [])) ++
            (pyJoin "\".\"" (s2 :: rest2)).data) ++ ['"'])) = _
          rw [tokGo]
          rw [if_neg (by decide)]
          rw [if_neg (by simp [isDelim])]
          rw [List.append_assoc, List.append_assoc]
          rw [show ((('"' :: '.' :: '"' :: []) : List Char) ++
            ((pyJoin "\".\"" (s2 :: rest2)).data ++ ['"'])) =
            '"' :: '.' :: '"' :: ((pyJoin "\".\"" (s2 :: rest2)).data ++ ['"']) from rfl]
          rw [tokGo_run_consume s.data (hgood s (by simp)) ['"']]
          rw [tokGo]
          rw [if_neg (by simp [isDelim])]
          rw [tokGo]
          rw [if_pos (by simp [isDelim])]
          rw [ih (by simp) (fun x hx => hgood x (by simp [hx]))]
          rw [List.map_cons]
          apply congrArg (fun l => l :: (s2 :: rest2).map (fun s => "\"" ++ s ++ "\""))
          apply String.ext
          show ('"' :: (s.data.reverse ++ ['"'])).reverse = '"' :: (s.data ++ ['"'])
          simp

/-- The dotted rendering starts with a double quote, so the bracketed
branch never fires on it. -/
theorem matchBracketed_dq (l : List Char) :
    matchBracketed (String.mk ('"' :: l)) = none := by
  rw [matchBracketed]
  simp [List.dropWhile, isSpaceChar]

theorem wrap_ne_empty (s : String) : ("\"" ++ s ++ "\"") ≠ "" := by
  intro h
  have h2 : ('"' :: (s.data ++ ['"'])) = ([] : List Char) := congrArg String.data h
  exact List.cons_ne_nil _ _ h2

theorem removeDQ_wrap (s : String) (h : ∀ c ∈ s.data, goodChar c = true) :
    removeDQ ("\"" ++ s ++ "\"") = s := by
  apply String.ext
  show ('"' :: (s.data ++ ['"'])).filter (fun c => c ≠ '"') = s.data
  rw [List.filter_cons]
  simp only [decide_not]
  rw [List.filter_append]
  have h1 : s.data.filter (fun c => !(decide (c = '"'))) = s.data := by
    rw [List.filter_eq_self]
    intro c hc
    simp [goodChar_not_dq c (h c hc)]
  simp [h1]

/-- A hay whose char list splits around the needle contains it. -/
theorem strHasSub_of_data (hay needle : String) (xs ys : List Char)
    (h : hay.data = xs ++ (needle.data ++ ys)) : strHasSub hay needle = true := by
  unfold strHasSub
  rw [h]
  exact listHasSub_mid xs needle.data ys

/-! ## Concrete fixtures used by closed theorems and witnesses -/

def envAllOk : Env := ⟨fun _ => .ok, fun _ => .found⟩

/-- One-column, one-row tabular value. -/
def dfW : DataFrame := ⟨[⟨"id", .int64⟩], [[.int 1]]⟩

/-- One-column, three-row tabular value. -/
def df3 : DataFrame := ⟨[⟨"id", .int64⟩], [[.int 1], [.int 2], [.int 3]]⟩

/-- Columns but no rows. -/
def dfNoRows : DataFrame := ⟨[⟨"id", .int64⟩, ⟨"name", .other "str"⟩], []⟩

def errNF : DremioError := ⟨404, "Path not found: No such file or directory"⟩

def errOther : DremioError := ⟨500, "internal engine failure"⟩

def errConflict : DremioError := ⟨409, " [existing table]"⟩

/-- Every statement is answered with the 409 conflict error. -/
def envC6 : Env := ⟨fun _ => .err errConflict, fun _ => .found⟩

/-- Engine accepts everything; the catalog lookup fails with the engine's
missing-entry message (the target table does not exist). -/
def envMissing : Env := ⟨fun _ => .ok, fun _ => .raises errNF⟩

/-- Catalog lookup fails with an unrelated engine error. -/
def envLookupOther : Env := ⟨fun _ => .ok, fun _ => .raises errOther⟩

/-- The first statement (the CREATE) is rejected with a non-conflict
status; everything after it is accepted. -/
def envBadCreate : Env :=
  ⟨fun k => if k = 0 then .err ⟨400, "syntax error near CREATE"⟩ else .ok,
    fun _ => .found⟩

/-- The fourth statement (the DROP of the staging table) fails. -/
def envDropFails : Env :=
  ⟨fun k => if k = 3 then .err ⟨500, "drop failed"⟩ else .ok, fun _ => .found⟩

/-! ## The claims -/

/-- Claim C5: the value escaper is total over the supported scalar kinds
(null, NaN float, string, datetime, date, boolean, numeric) — a total Lean
function over `PyVal`, so it never raises — and maps each kind as
specified: null and float NaN to NULL; a string to a single-quoted literal
with each embedded single quote doubled (every quote of the escaped body
comes as an adjacent pair, and O'Brien becomes 'O''Brien'); a datetime to
`TIMESTAMP '<ISO 8601, space separator, second precision>'`; a date-only
value to `DATE '<ISO date>'`; a boolean to TRUE or FALSE (decided before
the generic numeric fall-through); any other value (finite float, int,
other) to its default unquoted string form. -/
theorem claim_C5_escaper :
    (escape_sql_value .pyNone = "NULL")
    ∧ (∀ t, escape_sql_value (.float true t) = "NULL")
    ∧ (∀ s, escape_sql_value (.str s) = "'" ++ doubleSQ s ++ "'"
        ∧ quotesDoubled (doubleSQ s).data = true)
    ∧ escape_sql_value (.str "O'Brien") = "'O''Brien'"
    ∧ (∀ d, escape_sql_value (.datetime d) = "TIMESTAMP '" ++ d.isoformatSpSec ++ "'")
    ∧ (∀ d, escape_sql_value (.date d) = "DATE '" ++ d.isoformat ++ "'")
    ∧ (∀ b, escape_sql_value (.bool b) = if b then "TRUE" else "FALSE")
    ∧ (∀ t, escape_sql_value (.float false t) = t)
    ∧ (∀ n, escape_sql_value (.int n) = toString n)
    ∧ (∀ t, escape_sql_value (.other t) = t) := by
  refine ⟨rfl, fun t => rfl, fun s => ⟨rfl, quotesDoubled_doubleSQChars s.data⟩,
    by decide, fun d => rfl, fun d => rfl, fun b => rfl, fun t => rfl,
    fun n => rfl, fun t => rfl⟩

/-- Claim C4: with every engine call succeeding and `batch_size = b ≥ 1`,
create-from-tabular sends exactly one CREATE followed by the INSERT
statements of the flushed batches — `⌈n/b⌉` of them, each carrying at most
`b` rows, the batches concatenating back to all rows in order — and 2500
rows with `b = 1000` flush as 1000/1000/500. -/
theorem claim_C4_batching (env : Env) (df : DataFrame) (path : PyPath)
    (name : Option String) (b : Nat) (hb : 1 ≤ b) (hok : ∀ i, env.query i = .ok) :
    create_table_from_dataframe env 0 df path name b =
      (create_sql_stmt df (dotted_full_path path name) ::
        (loopBatches renderRow b df.rows []).map
          (insert_sql b (dotted_full_path path name)), .ok)
    ∧ (loopBatches renderRow b df.rows []).length = (df.rows.length + b - 1) / b
    ∧ (∀ l ∈ loopBatches renderRow b df.rows [], l.length ≤ b)
    ∧ (loopBatches renderRow b df.rows []).join = df.rows.map renderRow
    ∧ (df.rows.length = 2500 → b = 1000 →
        (loopBatches renderRow b df.rows []).map List.length =
          List.replicate 2 1000 ++ [500]) := by
  refine ⟨?_, ?_, ?_, ?_, ?_⟩
  · unfold create_table_from_dataframe
    rw [hok 0]
    simp [sendAll_ok env hok]
  · have h1 := loopBatches_lengths renderRow b df.rows []
    have h2 : (loopBatches renderRow b df.rows []).length =
        ((loopBatches renderRow b df.rows []).map List.length).length := by simp
    rw [h2, h1]
    simp only [List.length_nil]
    exact lensLoop_count b hb df.rows.length
  · exact loopBatches_sizes renderRow b df.rows []
      (by simp only [List.length_nil]; omega)
  · exact loopBatches_join renderRow b df.rows []
      (by simp only [List.length_nil]; omega)
  · intro h25 h10
    subst h10
    rw [loopBatches_lengths renderRow 1000 df.rows []]
    rw [h25]
    simp only [List.length_nil]
    rw [lensLoop_closed 1000 (by omega) 2500]
    norm_num

/-- Claim C4 witness: three rows at batch size 2 — ⌈3/2⌉ = 2 INSERTs of
2 and 1 rows, all rows in order. -/
theorem claim_C4_batching_witness :
    (1 ≤ 2
    ∧ create_table_from_dataframe envAllOk 0 df3 (.asStr "p") (some "t") 2 =
      (create_sql_stmt df3 (dotted_full_path (.asStr "p") (some "t")) ::
        (loopBatches renderRow 2 df3.rows []).map
          (insert_sql 2 (dotted_full_path (.asStr "p") (some "t"))), .ok)
    ∧ (loopBatches renderRow 2 df3.rows []).length = (df3.rows.length + 2 - 1) / 2
    ∧ (∀ l ∈ loopBatches renderRow 2 df3.rows [], l.length ≤ 2)
    ∧ (loopBatches renderRow 2 df3.rows []).join = df3.rows.map renderRow
    ∧ (df3.rows.length = 2500 → 2 = 1000 →
        (loopBatches renderRow 2 df3.rows []).map List.length =
          List.replicate 2 1000 ++ [500]))
    ∧ (loopBatches renderRow 2 df3.rows []).map List.length = [2, 1] := by
  constructor
  · exact ⟨by decide,
      claim_C4_batching envAllOk df3 (.asStr "p") (some "t") 2 (by decide) (fun i => rfl)⟩
  · decide

/-- Claim C6: when the engine answers a CREATE with the conflict status 409,
both create operations re-raise the engine error with its message annotated
to name the full target path and to direct the caller to the update
operation (`update_dataset()` or `update_table()`); the status is kept and
the conflict is never silently ignored. -/
theorem claim_C6_conflict (env : Env) (k : Nat) (df : DataFrame)
    (path : PyPath) (name : Option String) (b : Nat) (sql : String)
    (e : DremioError) (hq : env.query k = .err e) (h409 : e.status_code = 409) :
    create_table_from_dataframe env k df path name b =
      ([create_sql_stmt df (dotted_full_path path name)],
        .dremioError (conflictMsgDf (dotted_full_path path name) e))
    ∧ create_table_from_sql env k sql path name =
      (["\n        CREATE TABLE " ++ dotted_full_path path name ++ " AS\n        " ++
          sql ++ "\n        "],
        .dremioError (conflictMsgSql (dotted_full_path path name) e))
    ∧ strHasSub (conflictMsgDf (dotted_full_path path name) e).errorMessage
        (dotted_full_path path name) = true
    ∧ strHasSub (conflictMsgDf (dotted_full_path path name) e).errorMessage
        "Use update_dataset()" = true
    ∧ strHasSub (conflictMsgSql (dotted_full_path path name) e).errorMessage
        (dotted_full_path path name) = true
    ∧ strHasSub (conflictMsgSql (dotted_full_path path name) e).errorMessage
        "Use update_table()" = true
    ∧ (conflictMsgDf (dotted_full_path path name) e).status_code = e.status_code := by
  refine ⟨?_, ?_, ?_, ?_, ?_, ?_, rfl⟩
  · unfold create_table_from_dataframe
    rw [hq]
    simp [h409]
  · unfold create_table_from_sql
    rw [hq]
    simp [h409]
  · apply strHasSub_of_data _ _ ("Table '".data)
      (("' already exists. Use update_dataset() to modify it." ++ e.errorMessage).data)
    show ("Table '" ++ dotted_full_path path name ++
      "' already exists. Use update_dataset() to modify it." ++ e.errorMessage).data = _
    simp [String.data_append, List.append_assoc]
  · rw [show (conflictMsgDf (dotted_full_path path name) e).errorMessage =
      "Table '" ++ dotted_full_path path name ++
        ("' already exists. " ++ "Use update_dataset()" ++ " to modify it.") ++
        e.errorMessage from rfl]
    apply strHasSub_of_data _ _
      ("Table '".data ++ ((dotted_full_path path name).data ++ "' already exists. ".data))
      (" to modify it.".data ++ e.errorMessage.data)
    simp [String.data_append, List.append_assoc]
  · apply strHasSub_of_data _ _ ("Table '".data)
      (("' already exists. Use update_table() to modify it." ++ e.errorMessage).data)
    show ("Table '" ++ dotted_full_path path name ++
      "' already exists. Use update_table() to modify it." ++ e.errorMessage).data = _
    simp [String.data_append, List.append_assoc]
  · rw [show (conflictMsgSql (dotted_full_path path name) e).errorMessage =
      "Table '" ++ dotted_full_path path name ++
        ("' already exists. " ++ "Use update_table()" ++ " to modify it.") ++
        e.errorMessage from rfl]
    apply strHasSub_of_data _ _
      ("Table '".data ++ ((dotted_full_path path name).data ++ "' already exists. ".data))
      (" to modify it.".data ++ e.errorMessage.data)
    simp [String.data_append, List.append_assoc]

/-- Claim C6 witness: a concrete 409 on a concrete path. -/
theorem claim_C6_conflict_witness :
    (envC6.query 0 = .err errConflict ∧ errConflict.status_code = 409)
    ∧ (create_table_from_dataframe envC6 0 dfW (.asStr "a.b") (some "t") 1000 =
        ([create_sql_stmt dfW (dotted_full_path (.asStr "a.b") (some "t"))],
          .dremioError (conflictMsgDf (dotted_full_path (.asStr "a.b") (some "t")) errConflict))
      ∧ create_table_from_sql envC6 0 "SELECT 1" (.asStr "a.b") (some "t") =
        (["\n        CREATE TABLE " ++ dotted_full_path (.asStr "a.b") (some "t") ++
            " AS\n        " ++ "SELECT 1" ++ "\n        "],
          .dremioError (conflictMsgSql (dotted_full_path (.asStr "a.b") (some "t")) errConflict))
      ∧ strHasSub (conflictMsgDf (dotted_full_path (.asStr "a.b") (some "t")) errConflict).errorMessage
          (dotted_full_path (.asStr "a.b") (some "t")) = true
      ∧ strHasSub (conflictMsgDf (dotted_full_path (.asStr "a.b") (some "t")) errConflict).errorMessage
          "Use update_dataset()" = true
      ∧ strHasSub (conflictMsgSql (dotted_full_path (.asStr "a.b") (some "t")) errConflict).errorMessage
          (dotted_full_path (.asStr "a.b") (some "t")) = true
      ∧ strHasSub (conflictMsgSql (dotted_full_path (.asStr "a.b") (some "t")) errConflict).errorMessage
          "Use update_table()" = true
      ∧ (conflictMsgDf (dotted_full_path (.asStr "a.b") (some "t")) errConflict).status_code =
          errConflict.status_code) :=
  ⟨⟨rfl, rfl⟩, claim_C6_conflict envC6 0 dfW (.asStr "a.b") (some "t") 1000 "SELECT 1"
    errConflict rfl rfl⟩

/-- Claim C7: in the update operation's existence check, a catalog-lookup
failure whose message holds the "No such file or directory" substring is
translated into the domain-level "table does not exist" RuntimeError, while
a lookup failure without that substring is re-raised unchanged; in both
cases nothing is sent to the engine. -/
theorem claim_C7_lookup_translation (env : Env) (sql onClause path : String)
    (e : DremioError) (hl : env.lookup path = .raises e) :
    (strHasSub e.pyStr "No such file or directory" = true →
      update_table_from_sql env sql onClause path =
        ([], .runtimeError ("Table '" ++ path ++ "' does not exist.")))
    ∧ (strHasSub e.pyStr "No such file or directory" = false →
      update_table_from_sql env sql onClause path = ([], .dremioError e)) := by
  constructor
  · intro hsub
    unfold update_table_from_sql checkExists
    rw [hl]
    simp [hsub]
  · intro hsub
    unfold update_table_from_sql checkExists
    rw [hl]
    simp [hsub]

/-- Claim C7 witness: one lookup failure with the missing-pattern message,
one without. -/
theorem claim_C7_lookup_translation_witness :
    (envMissing.lookup "a.b.t" = .raises errNF
      ∧ strHasSub errNF.pyStr "No such file or directory" = true
      ∧ update_table_from_sql envMissing "SELECT 1" "t.id = s.id" "a.b.t" =
          ([], .runtimeError "Table 'a.b.t' does not exist."))
    ∧ (envLookupOther.lookup "a.b.t" = .raises errOther
      ∧ strHasSub errOther.pyStr "No such file or directory" = false
      ∧ update_table_from_sql envLookupOther "SELECT 1" "t.id = s.id" "a.b.t" =
          ([], .dremioError errOther)) := by
  constructor
  · refine ⟨rfl, by decide, ?_⟩
    have h := (claim_C7_lookup_translation envMissing "SELECT 1" "t.id = s.id" "a.b.t"
      errNF rfl).1 (by decide)
    exact h
  · refine ⟨rfl, by decide, ?_⟩
    have h := (claim_C7_lookup_translation envLookupOther "SELECT 1" "t.id = s.id" "a.b.t"
      errOther rfl).2 (by decide)
    exact h

/-- Claim C8: the usage guards of create run before any statement reaches
the engine.  The mixin's `create_table` takes a single source argument, so
"both a tabular value and a SQL query" cannot even be passed there; the
standalone script's `create_table` keeps the two-parameter interface, and
its both-given and neither-given calls raise ValueError with an empty
statement trace, as do the mixin's `None` (ValueError) and wrong-kind
(TypeError) sources. -/
theorem claim_C8_usage_guards (env env2 : Env) (path : PyPath)
    (name : Option String) (b b2 : Nat) (tp tn : String) (d : DataFrame) (s : String) :
    create_table env .pyNone path name b =
      ([], .valueError "You must provide either a DataFrame or a SQL query to create the table.")
    ∧ (∀ ty, create_table env (.other ty) path name b =
      ([], .typeError "from must be a Pandas DataFrame, Polars DataFrame or a SQL query string."))
    ∧ script_create_table env2 tp tn (some d) (some s) b2 =
      ([], .valueError "Provide only one of DataFrame or SQL query, not both.")
    ∧ script_create_table env2 tp tn none none b2 =
      ([], .valueError "You must provide either a DataFrame or a SQL query to create the table.") :=
  ⟨rfl, fun ty => rfl, rfl, rfl⟩

/-- Claim C10: a tabular value with zero rows creates the table and inserts
nothing: exactly one CREATE TABLE statement, which carries the inferred
column definitions, no INSERT, and a normal return. -/
theorem claim_C10_empty_tabular (env : Env) (df : DataFrame) (path : PyPath)
    (name : Option String) (b : Nat) (hrows : df.rows = []) (hq : env.query 0 = .ok) :
    create_table_from_dataframe env 0 df path name b =
      ([create_sql_stmt df (dotted_full_path path name)], .ok)
    ∧ strHasSub (create_sql_stmt df (dotted_full_path path name)) (columns_sql df) = true := by
  constructor
  · unfold create_table_from_dataframe
    rw [hq, hrows]
    simp [loopBatches, sendAll]
  · apply strHasSub_of_data _ _
      ("\n        CREATE TABLE ".data ++
        ((dotted_full_path path name).data ++ "\n        (\n          ".data))
      ("\n        )\n        ".data)
    simp [String.data_append, List.append_assoc, create_sql_stmt]

/-- Claim C10 witness: a two-column, zero-row tabular value. -/
theorem claim_C10_empty_tabular_witness :
    (dfNoRows.rows = [] ∧ envAllOk.query 0 = .ok)
    ∧ (create_table_from_dataframe envAllOk 0 dfNoRows (.asStr "a.b") (some "t") 1000 =
        ([create_sql_stmt dfNoRows (dotted_full_path (.asStr "a.b") (some "t"))], .ok)
      ∧ strHasSub (create_sql_stmt dfNoRows (dotted_full_path (.asStr "a.b") (some "t")))
          (columns_sql dfNoRows) = true) :=
  ⟨⟨rfl, rfl⟩, claim_C10_empty_tabular envAllOk dfNoRows (.asStr "a.b") (some "t") 1000 rfl rfl⟩

/-- Claim C1, evaluated at the failing input: with the catalog reporting the
target as missing ("No such file or directory"), the query-source update
raises the not-exist RuntimeError and sends nothing, but the tabular-source
update performs no existence check at all — it sends four statements, a
MERGE among them, and returns normally. -/
theorem claim_C1_df_update_skips_existence_check :
    update_table_from_sql envMissing "SELECT 1" "t.id = s.id" "a.b.t" =
      ([], .runtimeError "Table 'a.b.t' does not exist.")
    ∧ (update_table_from_dataframe envMissing dfW "t.id = s.id" "a.b.t" 1000 false).2 = .ok
    ∧ (update_table_from_dataframe envMissing dfW "t.id = s.id" "a.b.t" 1000 false).1.length = 4
    ∧ (update_table_from_dataframe envMissing dfW "t.id = s.id" "a.b.t" 1000 false).1.any
        (fun st => strHasSub st "MERGE INTO") = true := by
  decide

/-- Claim C2, evaluated at the failing input: a non-409 engine rejection of
the CREATE (status 400) is caught and silently dropped by both create
operations — the tabular path continues into the INSERT phase and returns
normally, the CTAS path returns normally. -/
theorem claim_C2_non409_error_swallowed :
    (create_table_from_dataframe envBadCreate 0 dfW (.asStr "a.b") (some "t") 1000).2 = .ok
    ∧ (create_table_from_dataframe envBadCreate 0 dfW (.asStr "a.b") (some "t") 1000).1.any
        (fun st => strHasSub st "INSERT INTO") = true
    ∧ (create_table_from_dataframe envBadCreate 0 dfW (.asStr "a.b") (some "t") 1000).1.length = 2
    ∧ create_table_from_sql envBadCreate 0 "SELECT 1" (.asStr "a.b") (some "t") =
        (["\n        CREATE TABLE a.b.t AS\n        SELECT 1\n        "], .ok) := by
  decide

/-- Claim C3 counterexample: a tabular value with zero rows also has "at
most batch_size rows", yet the statement sequence is CREATE, MERGE, DROP —
no staging INSERT is issued, so the claimed four-statement sequence fails. -/
theorem claim_C3_counterexample :
    (update_table_from_dataframe envAllOk dfNoRows "t.id = s.id" "a.b.t" 1000 false).1.length = 3
    ∧ (update_table_from_dataframe envAllOk dfNoRows "t.id = s.id" "a.b.t" 1000 false).1.any
        (fun st => strHasSub st "INSERT INTO") = false
    ∧ (update_table_from_dataframe envAllOk dfNoRows "t.id = s.id" "a.b.t" 1000 false).2 = .ok := by
  decide

/-- Claim C3 as amended: for a non-empty tabular value of at most
`batch_size` rows, update-from-tabular with `keep_staging=False` emits
exactly one staging CREATE, one staging INSERT, one MERGE and one DROP, in
that order; with `keep_staging=True` the DROP is never issued; and a
failure of the DROP statement is raised to the caller with the four
statements still sent. -/
theorem claim_C3_update_sequence (env : Env) (df : DataFrame)
    (onClause path : String) (b : Nat) (e : DremioError)
    (h1 : 1 ≤ df.rows.length) (h2 : df.rows.length ≤ b) :
    (env.query 0 = .ok → env.query 1 = .ok → env.query 2 = .ok → env.query 3 = .ok →
      update_table_from_dataframe env df onClause path b false =
        ([create_sql_stmt df (dotted_full_path (.asStr (temp_table_path path)) none),
          insert_sql b (dotted_full_path (.asStr (temp_table_path path)) none)
            (df.rows.map renderRow),
          merge_sql_from_df path (temp_table_path path) onClause,
          "DROP TABLE " ++ temp_table_path path], .ok))
    ∧ (env.query 0 = .ok → env.query 1 = .ok → env.query 2 = .ok →
      update_table_from_dataframe env df onClause path b true =
        ([create_sql_stmt df (dotted_full_path (.asStr (temp_table_path path)) none),
          insert_sql b (dotted_full_path (.asStr (temp_table_path path)) none)
            (df.rows.map renderRow),
          merge_sql_from_df path (temp_table_path path) onClause], .ok))
    ∧ (env.query 0 = .ok → env.query 1 = .ok → env.query 2 = .ok → env.query 3 = .err e →
      update_table_from_dataframe env df onClause path b false =
        ([create_sql_stmt df (dotted_full_path (.asStr (temp_table_path path)) none),
          insert_sql b (dotted_full_path (.asStr (temp_table_path path)) none)
            (df.rows.map renderRow),
          merge_sql_from_df path (temp_table_path path) onClause,
          "DROP TABLE " ++ temp_table_path path], .dremioError e)) := by
  have hne : df.rows ≠ [] := by
    intro hh
    rw [hh] at h1
    simp at h1
  have hsingle : loopBatches renderRow b df.rows [] = [df.rows.map renderRow] := by
    have := loopBatches_single renderRow b df.rows [] (Or.inr hne)
      (by simp only [List.length_nil, Nat.zero_add]; omega)
    simpa using this
  refine ⟨?_, ?_, ?_⟩
  · intro hq0 hq1 hq2 hq3
    have hstage : create_table_from_dataframe env 0 df
        (.asStr (temp_table_path path)) none b =
        ([create_sql_stmt df (dotted_full_path (.asStr (temp_table_path path)) none),
          insert_sql b (dotted_full_path (.asStr (temp_table_path path)) none)
            (df.rows.map renderRow)], .ok) := by
      unfold create_table_from_dataframe
      rw [hq0, hsingle]
      simp [sendAll, hq1]
    unfold update_table_from_dataframe
    simp [hstage, hq2, hq3]
  · intro hq0 hq1 hq2
    have hstage : create_table_from_dataframe env 0 df
        (.asStr (temp_table_path path)) none b =
        ([create_sql_stmt df (dotted_full_path (.asStr (temp_table_path path)) none),
          insert_sql b (dotted_full_path (.asStr (temp_table_path path)) none)
            (df.rows.map renderRow)], .ok) := by
      unfold create_table_from_dataframe
      rw [hq0, hsingle]
      simp [sendAll, hq1]
    unfold update_table_from_dataframe
    simp [hstage, hq2]
  · intro hq0 hq1 hq2 hq3
    have hstage : create_table_from_dataframe env 0 df
        (.asStr (temp_table_path path)) none b =
        ([create_sql_stmt df (dotted_full_path (.asStr (temp_table_path path)) none),
          insert_sql b (dotted_full_path (.asStr (temp_table_path path)) none)
            (df.rows.map renderRow)], .ok) := by
      unfold create_table_from_dataframe
      rw [hq0, hsingle]
      simp [sendAll, hq1]
    unfold update_table_from_dataframe
    simp [hstage, hq2, hq3]

/-- Claim C3 witness: one row at batch size 1000, under an all-ok engine
and under an engine whose fourth statement (the DROP) fails. -/
theorem claim_C3_update_sequence_witness :
    (1 ≤ dfW.rows.length ∧ dfW.rows.length ≤ 1000)
    ∧ update_table_from_dataframe envAllOk dfW "t.id = s.id" "a.b.t" 1000 false =
        ([create_sql_stmt dfW (dotted_full_path (.asStr (temp_table_path "a.b.t")) none),
          insert_sql 1000 (dotted_full_path (.asStr (temp_table_path "a.b.t")) none)
            (dfW.rows.map renderRow),
          merge_sql_from_df "a.b.t" (temp_table_path "a.b.t") "t.id = s.id",
          "DROP TABLE " ++ temp_table_path "a.b.t"], .ok)
    ∧ update_table_from_dataframe envAllOk dfW "t.id = s.id" "a.b.t" 1000 true =
        ([create_sql_stmt dfW (dotted_full_path (.asStr (temp_table_path "a.b.t")) none),
          insert_sql 1000 (dotted_full_path (.asStr (temp_table_path "a.b.t")) none)
            (dfW.rows.map renderRow),
          merge_sql_from_df "a.b.t" (temp_table_path "a.b.t") "t.id = s.id"], .ok)
    ∧ update_table_from_dataframe envDropFails dfW "t.id = s.id" "a.b.t" 1000 false =
        ([create_sql_stmt dfW (dotted_full_path (.asStr (temp_table_path "a.b.t")) none),
          insert_sql 1000 (dotted_full_path (.asStr (temp_table_path "a.b.t")) none)
            (dfW.rows.map renderRow),
          merge_sql_from_df "a.b.t" (temp_table_path "a.b.t") "t.id = s.id",
          "DROP TABLE " ++ temp_table_path "a.b.t"], .dremioError ⟨500, "drop failed"⟩) := by
  refine ⟨⟨by decide, by decide⟩, ?_, ?_, ?_⟩
  · exact (claim_C3_update_sequence envAllOk dfW "t.id = s.id" "a.b.t" 1000
      ⟨500, "drop failed"⟩ (by decide) (by decide)).1 rfl rfl rfl rfl
  · exact (claim_C3_update_sequence envAllOk dfW "t.id = s.id" "a.b.t" 1000
      ⟨500, "drop failed"⟩ (by decide) (by decide)).2.1 rfl rfl rfl
  · exact (claim_C3_update_sequence envDropFails dfW "t.id = s.id" "a.b.t" 1000
      ⟨500, "drop failed"⟩ (by decide) (by decide)).2.2 rfl rfl rfl rfl

/-- Claim C9 counterexample: rendering `["a", "b", "c"]` to the
dotted-quoted form and parsing it back yields the segments still wrapped in
double quotes, not the original segments. -/
theorem claim_C9_counterexample :
    path_to_list (.asStr (path_to_dotted (.asList ["a", "b", "c"]))) =
      ["\"a\"", "\"b\"", "\"c\""]
    ∧ path_to_list (.asStr (path_to_dotted (.asList ["a", "b", "c"]))) ≠
      ["a", "b", "c"] := by
  decide

/-- Stripping the added double quotes back off recovers good segments. -/
theorem map_removeDQ_wrap (ls : List String)
    (h : ∀ s ∈ ls, ∀ c ∈ s.data, goodChar c = true) :
    (ls.map (fun s => "\"" ++ s ++ "\"")).map removeDQ = ls := by
  induction ls with
  | nil => rfl
  | cons s rest ih =>
      rw [List.map_cons, List.map_cons, removeDQ_wrap s (h s (by simp))]
      rw [ih (fun x hx c hc => h x (by simp [hx]) c hc)]

/-- Claim C9 as amended: for a non-empty TablePath of non-empty, quote-free
identifier segments, normalization (the list branch) is the identity;
rendering to the dotted-quoted form and parsing that string back yields
each segment wrapped in its double quotes — not the original list — and
normalizing that parsed list once more recovers the original segments; and
unconditionally, no segment of a normalized list contains a double-quote
character. -/
theorem claim_C9_roundtrip (segs : List String) (hne : segs ≠ [])
    (hg : ∀ s ∈ segs, goodSeg s = true) :
    path_to_list (.asStr (path_to_dotted (.asList segs))) =
      segs.map (fun s => "\"" ++ s ++ "\"")
    ∧ path_to_list (.asList (segs.map (fun s => "\"" ++ s ++ "\""))) = segs
    ∧ path_to_list (.asList segs) = segs
    ∧ (∀ (l : List String) (t : String), t ∈ path_to_list (.asList l) →
        t.data.all (fun c => c ≠ '"') = true) := by
  have hid : path_to_list (.asList segs) = segs := path_to_list_good segs hg
  have hgd : ∀ s ∈ segs, ∀ c ∈ s.data, isDelim c = false :=
    fun s hs c hc => goodChar_not_delim c (goodSeg_chars s (hg s hs) c hc)
  refine ⟨?_, ?_, hid, ?_⟩
  · rw [show path_to_dotted (.asList segs) =
      "\"" ++ pyJoin "\".\"" (path_to_list (.asList segs)) ++ "\"" from rfl]
    rw [hid]
    rw [path_to_list]
    rw [show matchBracketed ("\"" ++ pyJoin "\".\"" segs ++ "\"") = none from
      matchBracketed_dq ((pyJoin "\".\"" segs).data ++ ['"'])]
    rw [show tokGo .top (("\"" ++ pyJoin "\".\"" segs ++ "\"").data) =
      tokGo .top ('"' :: ((pyJoin "\".\"" segs).data ++ ['"'])) from rfl]
    rw [tokGo_dotted segs hne hgd]
    rw [List.filter_eq_self.mpr]
    intro t ht
    obtain ⟨s, _, rfl⟩ := List.mem_map.mp ht
    simp [wrap_ne_empty s]
  · show ((segs.map (fun s => "\"" ++ s ++ "\"")).filter (fun p => p ≠ "")).map removeDQ = segs
    rw [List.filter_eq_self.mpr (by
      intro t ht
      obtain ⟨s, _, rfl⟩ := List.mem_map.mp ht
      simp [wrap_ne_empty s])]
    exact map_removeDQ_wrap segs (fun s hs => goodSeg_chars s (hg s hs))
  · intro l t ht
    show t.data.all (fun c => c ≠ '"') = true
    have ht2 : t ∈ (l.filter (fun p => p ≠ "")).map removeDQ := ht
    obtain ⟨x, _, rfl⟩ := List.mem_map.mp ht2
    rw [List.all_eq_true]
    intro c hc
    have hmem : c ∈ x.data.filter (fun c => c ≠ '"') := hc
    have := List.of_mem_filter hmem
    simpa using this

/-- Claim C9 witness: the three-segment path `a.b.c`. -/
theorem claim_C9_roundtrip_witness :
    ((["a", "b", "c"] : List String) ≠ []
      ∧ (∀ s ∈ (["a", "b", "c"] : List String), goodSeg s = true))
    ∧ path_to_list (.asStr (path_to_dotted (.asList ["a", "b", "c"]))) =
        ["\"a\"", "\"b\"", "\"c\""]
    ∧ path_to_list (.asList ["\"a\"", "\"b\"", "\"c\""]) = ["a", "b", "c"]
    ∧ path_to_list (.asList ["a", "b", "c"]) = ["a", "b", "c"] := by
  refine ⟨⟨by decide, by decide⟩, ?_, ?_, ?_⟩
  · exact (claim_C9_roundtrip ["a", "b", "c"] (by decide) (by decide)).1
  · exact (claim_C9_roundtrip ["a", "b", "c"] (by decide) (by decide)).2.1
  · exact (claim_C9_roundtrip ["a", "b", "c"] (by decide) (by decide)).2.2.1

end PyDremio
